import Mathlib

/-!
# cosmos-docker-upgrader: the upgrade sequencer, the validator and the watch loop

A shallow embedding of `cmd/cosmos-docker-upgrader/main.go`.

The Go program talks to the operating system: it stats paths, renames files,
runs `docker-compose`, sleeps, and reads events from an fsnotify watcher.  The
embedding makes that explicit:

* `World` is the state the program acts on: the filesystem (a map from path to
  node) and the list of system calls made so far, oldest first;
* `Env` is the disposition of the operating system: for each call that can fail
  for reasons outside the filesystem map (walking to a path, a command, a
  rename, creating or subscribing a watcher) it says whether it fails and with
  which error;
* every Go function that returns `error` returns `Option String` (the text of
  the error, `none` for `nil`) together with the new world.

Log output is not modelled.  The commands run by `runCommand` are taken not to
touch the filesystem map.  `os.Stat` fails with `ENOENT` when nothing is at the
path, and with another error number when the kernel cannot walk to the path (a
component that is not a directory, a name that is too long, a folder that may
not be searched); `os.IsNotExist` accepts `ENOENT` only.
-/

set_option linter.unusedVariables false

namespace CosmosDockerUpgrader

/-! ## Constants (main.go, lines 22-27) -/

def upgradeInfoFile : String := "upgrade-info.json"

def dockerComposeFile : String := "docker-compose.yml"

def dockerComposeNext : String := "docker-compose.yml-next"

def dockerComposeBackup : String := "docker-compose.yml-backup"

/-! ## Paths (Go standard library, `path/filepath` on Unix) -/

/-- The function `filepath.Join` for two elements: empty elements are ignored
and the rest is joined with a slash.  The lexical `Clean` pass that Go applies
to the result is left out: it rewrites the directory part only, and the result
names the same file, and the filesystem map below uses paths as plain keys. -/
def Join (dir name : String) : String :=
  if dir = "" then name
  else if name = "" then dir
  else dir ++ "/" ++ name

/-- Characters of a path with the trailing slashes removed. -/
def stripTrailingSlashes (cs : List Char) : List Char :=
  (cs.reverse.dropWhile (fun c => c == '/')).reverse

/-- Characters after the last slash. -/
def lastElement (cs : List Char) : List Char :=
  (cs.reverse.takeWhile (fun c => c != '/')).reverse

/-- The function `filepath.Base`: the last element of the path, trailing
slashes removed first; `.` for the empty path and `/` for a path of slashes
only. -/
def Base (path : String) : String :=
  if path = "" then "."
  else
    let last := lastElement (stripTrailingSlashes path.data)
    if last = [] then "/" else String.mk last

/-! ## The world -/

/-- What a path holds: a directory, or a file with its content. -/
inductive Node where
  | dir : Node
  | file (content : String) : Node
  deriving DecidableEq, Repr

/-- The filesystem: what each path holds, `none` when nothing is there. -/
abbrev FS := String → Option Node

/-- A system call made by the program. -/
inductive Call where
  | sleep (ms : Nat) : Call
  | stat (path : String) : Call
  | exec (dir name : String) (args : List String) : Call
  | rename (src dst : String) : Call
  | newWatcher : Call
  | watcherAdd (path : String) : Call
  | watcherClose : Call
  | osExit (code : Nat) : Call
  deriving DecidableEq, Repr

/-- The error numbers of a failed `os.Stat` or `os.Rename`. -/
inductive Errno where
  | ENOENT : Errno
  | ENOTDIR : Errno
  | ENAMETOOLONG : Errno
  | EACCES : Errno
  deriving DecidableEq, Repr

/-- The text of an error number, as `syscall.Errno.Error` gives it. -/
def Errno.text : Errno → String
  | .ENOENT => "no such file or directory"
  | .ENOTDIR => "not a directory"
  | .ENAMETOOLONG => "file name too long"
  | .EACCES => "permission denied"

/-- The function `os.IsNotExist` on the error of a stat (`none` for `nil`):
true for `ENOENT`, false for every other error and for no error. -/
def IsNotExist : Option Errno → Bool
  | some .ENOENT => true
  | _ => false

/-- The state the program acts on. -/
structure World where
  fs : FS
  calls : List Call

/-- The disposition of the operating system towards the calls that can fail
for reasons the filesystem map does not show.  `none` lets the call go
through.  `walkErr p` is the error with which the kernel fails to walk to the
path `p`, whatever is or is not there. -/
structure Env where
  walkErr : String → Option Errno
  execErr : String → String → List String → Option String
  renameErr : String → String → Option String
  newWatcherErr : Option String
  watcherAddErr : String → Option String

/-- Appends one call to the record of calls. -/
def World.record (w : World) (c : Call) : World :=
  { w with calls := w.calls ++ [c] }

/-- The calls made between world `w` and the later world `w2`. -/
def performed (w w2 : World) : List Call :=
  w2.calls.drop w.calls.length

/-- The calls that change something: renames and commands. -/
def Call.isAction : Call → Bool
  | .exec _ _ _ => true
  | .rename _ _ => true
  | _ => false

/-! ## Operating-system primitives -/

/-- The call `time.Sleep`. -/
def sleep (ms : Nat) (w : World) : World :=
  w.record (.sleep ms)

/-- The call `os.Stat`, with its error only: the error of the walk to `p` when
the kernel cannot walk there, `ENOENT` when nothing is at `p`, no error
otherwise. -/
def osStat (env : Env) (p : String) (w : World) : Option Errno × World :=
  let w1 := w.record (.stat p)
  match env.walkErr p with
  | some e => (some e, w1)
  | none =>
    match w.fs p with
    | none => (some .ENOENT, w1)
    | some _ => (none, w1)

/-- The idiom `_, err := os.Stat(p); os.IsNotExist(err)`. -/
def statNotExist (env : Env) (p : String) (w : World) : Bool × World :=
  (IsNotExist (osStat env p w).1, (osStat env p w).2)

/-- The filesystem after `src` moved to `dst`, replacing what was there. -/
def moveNode (fs : FS) (src dst : String) (n : Option Node) : FS :=
  fun p => if p = dst then n else if p = src then none else fs p

/-- The call `os.Rename`.  It fails when the kernel cannot walk to `src` or to
`dst`, when nothing is at `src`, or when the operating system refuses for
another reason; a failed rename leaves the filesystem as it was.  The error
text is that of Go's `*os.LinkError`. -/
def osRename (env : Env) (src dst : String) (w : World) : Option String × World :=
  let w1 := w.record (.rename src dst)
  match env.walkErr src with
  | some e => (some ("rename " ++ src ++ " " ++ dst ++ ": " ++ e.text), w1)
  | none =>
    match w.fs src with
    | none => (some ("rename " ++ src ++ " " ++ dst ++ ": " ++ Errno.ENOENT.text), w1)
    | some n =>
      match env.walkErr dst with
      | some e => (some ("rename " ++ src ++ " " ++ dst ++ ": " ++ e.text), w1)
      | none =>
        match env.renameErr src dst with
        | some cause => (some ("rename " ++ src ++ " " ++ dst ++ ": " ++ cause), w1)
        | none => (none, { w1 with fs := moveNode w.fs src dst (some n) })

/-- The call `os.Exit`, reached through `log.Fatalf`. -/
def osExit (code : Nat) (w : World) : World :=
  w.record (.osExit code)

/-- The call `fsnotify.NewWatcher`. -/
def newWatcher (env : Env) (w : World) : Option String × World :=
  (env.newWatcherErr, w.record .newWatcher)

/-- The call `watcher.Add`. -/
def watcherAdd (env : Env) (p : String) (w : World) : Option String × World :=
  (env.watcherAddErr p, w.record (.watcherAdd p))

/-- The call `watcher.Close`. -/
def watcherClose (w : World) : World :=
  w.record .watcherClose

/-! ## fsnotify events -/

/-- The type `fsnotify.Op`: a bit mask. -/
abbrev Op := Nat

def Op.Create : Op := 1

def Op.Write : Op := 2

def Op.Remove : Op := 4

def Op.Rename : Op := 8

def Op.Chmod : Op := 16

/-- The type `fsnotify.Event`. -/
structure Event where
  Name : String
  Op : Op

/-- The method `Event.Has`: the event's mask contains the bit `op`. -/
def Event.Has (e : Event) (op : CosmosDockerUpgrader.Op) : Bool :=
  e.Op &&& op == op

/-! ## The program (main.go) -/

/-- The function `runCommand` (main.go, lines 192-200). -/
def runCommand (env : Env) (workDir name : String) (args : List String) (w : World) :
    Option String × World :=
  (env.execErr workDir name args, w.record (.exec workDir name args))

/-- The function `performUpgrade` (main.go, lines 152-190). -/
def performUpgrade (env : Env) (chainFolder : String) (w : World) : Option String × World :=
  -- Step 1: docker-compose down
  match runCommand env chainFolder "docker-compose" ["down"] w with
  | (some err, w1) => (some ("failed to stop containers: " ++ err), w1)
  | (none, w1) =>
    -- Step 2: Backup current docker-compose.yml
    let currentPath := Join chainFolder dockerComposeFile
    let backupPath := Join chainFolder dockerComposeBackup
    match osRename env currentPath backupPath w1 with
    | (some err, w2) => (some ("failed to backup docker-compose.yml: " ++ err), w2)
    | (none, w2) =>
      -- Step 3: Move docker-compose.yml-next to docker-compose.yml
      let nextPath := Join chainFolder dockerComposeNext
      match osRename env nextPath currentPath w2 with
      | (some err, w3) =>
        -- Try to restore backup if this fails
        match osRename env backupPath currentPath w3 with
        | (some restoreErr, w4) =>
          (some ("failed to promote next compose file AND failed to restore backup: "
            ++ err ++ ", restore error: " ++ restoreErr), w4)
        | (none, w4) => (some ("failed to promote docker-compose.yml-next: " ++ err), w4)
      | (none, w3) =>
        -- Step 4: docker-compose up -d
        match runCommand env chainFolder "docker-compose" ["up", "-d"] w3 with
        | (some err, w4) => (some ("failed to start containers: " ++ err), w4)
        | (none, w4) => (none, w4)

/-! The calls of `performUpgrade` one by one, each made in the world the
calls before it left (`performUpgrade_eq_steps` below proves that these are the
calls `performUpgrade` makes).  They let a statement say "the backup rename
succeeds" as `(backupStep env chainFolder w).1 = none`. -/

/-- Step 1 of `performUpgrade`: `docker-compose down`. -/
def stopStep (env : Env) (chainFolder : String) (w : World) : Option String × World :=
  runCommand env chainFolder "docker-compose" ["down"] w

/-- Step 2 of `performUpgrade`: the rename of the active file to the backup
path, made after step 1. -/
def backupStep (env : Env) (chainFolder : String) (w : World) : Option String × World :=
  osRename env (Join chainFolder dockerComposeFile) (Join chainFolder dockerComposeBackup)
    (stopStep env chainFolder w).2

/-- Step 3 of `performUpgrade`: the rename of the pending file to the active
path, made after step 2. -/
def promoteStep (env : Env) (chainFolder : String) (w : World) : Option String × World :=
  osRename env (Join chainFolder dockerComposeNext) (Join chainFolder dockerComposeFile)
    (backupStep env chainFolder w).2

/-- The compensating rename of the backup to the active path, made after a
failed step 3. -/
def restoreStep (env : Env) (chainFolder : String) (w : World) : Option String × World :=
  osRename env (Join chainFolder dockerComposeBackup) (Join chainFolder dockerComposeFile)
    (promoteStep env chainFolder w).2

/-- Step 4 of `performUpgrade`: `docker-compose up -d`, made after step 3. -/
def startStep (env : Env) (chainFolder : String) (w : World) : Option String × World :=
  runCommand env chainFolder "docker-compose" ["up", "-d"] (promoteStep env chainFolder w).2

/-- The function `handleUpgradeFile` (main.go, lines 131-150).  The error of
`performUpgrade` is logged only. -/
def handleUpgradeFile (env : Env) (chainFolder dataFolder : String) (w : World) : World :=
  -- Wait a brief moment for file to be fully written
  let w0 := sleep 100 w
  -- Check if docker-compose.yml-next exists
  let nextComposePath := Join chainFolder dockerComposeNext
  match statNotExist env nextComposePath w0 with
  | (true, w1) => w1
  | (false, w1) => (performUpgrade env chainFolder w1).2

/-- The function `validateDirectories` (main.go, lines 110-129). -/
def validateDirectories (env : Env) (chainFolder dataFolder : String) (w : World) :
    Option String × World :=
  -- Check if chain folder exists
  match statNotExist env chainFolder w with
  | (true, w1) => (some ("chain folder does not exist: " ++ chainFolder), w1)
  | (false, w1) =>
    -- Check if data folder exists
    match statNotExist env dataFolder w1 with
    | (true, w2) => (some ("data folder does not exist: " ++ dataFolder), w2)
    | (false, w2) =>
      -- Check if docker-compose.yml exists in chain folder
      let dockerComposePath := Join chainFolder dockerComposeFile
      match statNotExist env dockerComposePath w2 with
      | (true, w3) =>
        (some ("docker-compose.yml not found in chain folder: " ++ dockerComposePath), w3)
      | (false, w3) => (none, w3)

/-- The body of the `case event` branch of the watch loop (main.go, lines
93-99). -/
def handleEvent (env : Env) (chainFolder dataFolder : String) (event : Event) (w : World) :
    World :=
  if event.Has Op.Write || event.Has Op.Create then
    let filename := Base event.Name
    if filename = upgradeInfoFile then
      handleUpgradeFile env chainFolder dataFolder w
    else w
  else w

/-- One thing that happens while the watch loop runs: a receive on
`watcher.Events` (`none`: the channel is closed) under the disposition the
operating system has at that moment, a receive on `watcher.Errors`, or another
process changing the filesystem between two receives. -/
inductive Tick where
  | events (env : Env) (event : Option Event) : Tick
  | errors (err : Option String) : Tick
  | outside (change : FS → FS) : Tick

/-- Another process writes a file. -/
def writeFile (p content : String) (fs : FS) : FS :=
  fun q => if q = p then some (.file content) else fs q

/-- The world after another process changed the filesystem. -/
def World.changed (w : World) (change : FS → FS) : World :=
  { w with fs := change w.fs }

/-- The `for`/`select` loop of `runWatcher` (main.go, lines 86-107).  The
result says whether the loop returned (`true`) or is still waiting when the
ticks end (`false`). -/
def watchLoop (chainFolder dataFolder : String) : List Tick → World → Bool × World
  | [], w => (false, w)
  | .events _ none :: _, w => (true, w)
  | .events env (some event) :: rest, w =>
    watchLoop chainFolder dataFolder rest (handleEvent env chainFolder dataFolder event w)
  | .errors none :: _, w => (true, w)
  | .errors (some _) :: rest, w => watchLoop chainFolder dataFolder rest w
  | .outside change :: rest, w =>
    watchLoop chainFolder dataFolder rest (w.changed change)

/-- The function `runWatcher` (main.go, lines 60-108).  `log.Fatalf` ends the
process with status 1 and runs no deferred call; the deferred `watcher.Close`
runs when the loop returns. -/
def runWatcher (env : Env) (chainFolder dataFolder : String) (ticks : List Tick) (w : World) :
    World :=
  -- Validate directories exist
  match validateDirectories env chainFolder dataFolder w with
  | (some _, w1) => osExit 1 w1
  | (none, w1) =>
    -- Create file watcher
    match newWatcher env w1 with
    | (some _, w2) => osExit 1 w2
    | (none, w2) =>
      -- Add data folder to watcher
      match watcherAdd env dataFolder w2 with
      | (some _, w3) => osExit 1 w3
      | (none, w3) =>
        match watchLoop chainFolder dataFolder ticks w3 with
        | (true, w4) => watcherClose w4
        | (false, w4) => w4

/-! ## Sample worlds -/

/-- An operating system that refuses nothing. -/
def calmEnv : Env :=
  { walkErr := fun _ => none
    execErr := fun _ _ _ => none
    renameErr := fun _ _ => none
    newWatcherErr := none
    watcherAddErr := fun _ => none }

/-- A chain folder `/chain` holding an active and a pending configuration and
an older backup, and a data folder `/data`. -/
def sampleFS : FS := fun p =>
  if p = "/chain" then some .dir
  else if p = "/data" then some .dir
  else if p = "/chain/docker-compose.yml" then some (.file "image: v1")
  else if p = "/chain/docker-compose.yml-next" then some (.file "image: v2")
  else if p = "/chain/docker-compose.yml-backup" then some (.file "image: v0")
  else none

def sampleWorld : World :=
  { fs := sampleFS, calls := [] }

/-- An operating system on which `docker-compose down` fails. -/
def stopFailsEnv : Env :=
  { calmEnv with
    execErr := fun _ _ args => if args = ["down"] then some "exit status 1" else none }

/-- An operating system on which `docker-compose up -d` fails. -/
def startFailsEnv : Env :=
  { calmEnv with
    execErr := fun _ _ args => if args = ["up", "-d"] then some "exit status 1" else none }

/-- An operating system that refuses to rename the pending file. -/
def promoteRefusedEnv : Env :=
  { calmEnv with
    renameErr := fun src _ =>
      if src = "/chain/docker-compose.yml-next" then some "permission denied" else none }

/-- An operating system that refuses every rename onto the active path. -/
def activeLockedEnv : Env :=
  { calmEnv with
    renameErr := fun _ dst =>
      if dst = "/chain/docker-compose.yml" then some "permission denied" else none }

/-- An operating system with the limit of Linux on the length of a path: the
kernel walks to no path longer than 4095 bytes (`PATH_MAX` is 4096, the
closing zero byte included). -/
def pathMaxEnv : Env :=
  { calmEnv with
    walkErr := fun p => if 4095 < p.utf8ByteSize then some .ENAMETOOLONG else none
    watcherAddErr := fun p => if 4095 < p.utf8ByteSize then some "file name too long" else none }

/-- A path of `names` folders one in the other, each with a name of 96 bytes;
97 bytes for each. -/
def nestedFolder (names : Nat) : String :=
  String.mk (List.replicate names ('/' :: List.replicate 96 'a')).flatten

/-- A chain folder with a path of 4074 bytes. -/
def deepChain : String := nestedFolder 42

/-- A path of 4171 bytes. -/
def overlongPath : String := nestedFolder 43

/-- The chain folder `deepChain` holding an active configuration and no
pending one, and the data folder `/data`. -/
def deepWorld : World :=
  { fs := fun p =>
      if p = deepChain then some .dir
      else if p = "/data" then some .dir
      else if p = Join deepChain dockerComposeFile then some (.file "image: v1")
      else none
    calls := [] }

/-- An operating system seen from the regular file
`/chain/docker-compose.yml` of `sampleFS`: the kernel walks to no path below
it, and no command can be started with it as working directory. -/
def notDirEnv : Env :=
  { calmEnv with
    walkErr := fun p =>
      if "/chain/docker-compose.yml/".data.isPrefixOf p.data then some .ENOTDIR else none
    execErr := fun dir _ _ =>
      if dir = "/chain/docker-compose.yml" then
        some "fork/exec /usr/bin/docker-compose: not a directory"
      else none }

/-! ## Paths of the chain folder are distinct -/

theorem Join_left_inj (dir a b : String) (ha : a ≠ "") (hb : b ≠ "")
    (h : Join dir a = Join dir b) : a = b := by
  unfold Join at h
  by_cases hd : dir = ""
  · simpa [hd] using h
  · simp only [hd, ha, hb, if_false] at h
    have h2 := congrArg String.data h
    simp only [String.data_append, List.append_cancel_left_eq] at h2
    exact String.ext h2

@[simp]
theorem current_ne_backup (c : String) :
    Join c dockerComposeFile ≠ Join c dockerComposeBackup := by
  intro h
  exact absurd (Join_left_inj c _ _ (by decide) (by decide) h) (by decide)

@[simp]
theorem next_ne_current (c : String) :
    Join c dockerComposeNext ≠ Join c dockerComposeFile := by
  intro h
  exact absurd (Join_left_inj c _ _ (by decide) (by decide) h) (by decide)

@[simp]
theorem next_ne_backup (c : String) :
    Join c dockerComposeNext ≠ Join c dockerComposeBackup := by
  intro h
  exact absurd (Join_left_inj c _ _ (by decide) (by decide) h) (by decide)

@[simp]
theorem backup_ne_current (c : String) :
    Join c dockerComposeBackup ≠ Join c dockerComposeFile :=
  fun h => current_ne_backup c h.symm

@[simp]
theorem current_ne_next (c : String) :
    Join c dockerComposeFile ≠ Join c dockerComposeNext :=
  fun h => next_ne_current c h.symm

@[simp]
theorem backup_ne_next (c : String) :
    Join c dockerComposeBackup ≠ Join c dockerComposeNext :=
  fun h => next_ne_backup c h.symm

/-- The path of the marker file in any folder has the marker's base name. -/
theorem Base_Join_upgradeInfoFile (dir : String) :
    Base (Join dir upgradeInfoFile) = upgradeInfoFile := by
  unfold Join
  by_cases hd : dir = ""
  · simp only [hd, if_true]; decide
  · have hne : dir ++ "/" ++ upgradeInfoFile ≠ "" := by
      intro h
      have h2 := congrArg String.length h
      simp only [String.length_append] at h2
      have h3 : upgradeInfoFile.length = 17 := by decide
      have h4 : "".length = 0 := by decide
      omega
    have h0 : upgradeInfoFile ≠ "" := by decide
    simp only [hd, h0, if_false]
    unfold Base
    simp only [hne, if_false]
    have hdata : (dir ++ "/" ++ upgradeInfoFile).data =
        dir.data ++ '/' :: "upgrade-info.json".data := by
      simp [String.data_append, upgradeInfoFile]
    rw [hdata]
    simp [stripTrailingSlashes, lastElement, upgradeInfoFile, List.dropWhile, List.takeWhile]

/-! ## The primitives, case by case -/

/-- A rename goes through exactly when the kernel can walk to both paths,
something is at the source and the operating system does not refuse. -/
theorem osRename_none_iff (env : Env) (src dst : String) (w : World) :
    (osRename env src dst w).1 = none ↔
      env.walkErr src = none ∧ w.fs src ≠ none ∧ env.walkErr dst = none ∧
        env.renameErr src dst = none := by
  unfold osRename
  cases env.walkErr src <;> cases w.fs src <;> cases env.walkErr dst <;>
    cases env.renameErr src dst <;> simp

/-- A failed rename leaves the filesystem as it was. -/
theorem osRename_failed_fs (env : Env) (src dst : String) (w : World)
    (h : (osRename env src dst w).1 ≠ none) : (osRename env src dst w).2.fs = w.fs := by
  unfold osRename at h ⊢
  cases h1 : env.walkErr src <;> cases h2 : w.fs src <;> cases h3 : env.walkErr dst <;>
    cases h4 : env.renameErr src dst <;> simp [World.record, h1, h2, h3, h4] at h ⊢

/-- A rename that goes through moves what was at the source to the
destination. -/
theorem osRename_done_fs (env : Env) (src dst : String) (w : World)
    (h : (osRename env src dst w).1 = none) :
    (osRename env src dst w).2.fs = moveNode w.fs src dst (w.fs src) := by
  unfold osRename at h ⊢
  cases h1 : env.walkErr src <;> cases h2 : w.fs src <;> cases h3 : env.walkErr dst <;>
    cases h4 : env.renameErr src dst <;> simp [World.record, h1, h2, h3, h4] at h ⊢

theorem osRename_calls (env : Env) (src dst : String) (w : World) :
    (osRename env src dst w).2.calls = w.calls ++ [.rename src dst] := by
  unfold osRename
  cases env.walkErr src <;> cases w.fs src <;> cases env.walkErr dst <;>
    cases env.renameErr src dst <;> rfl

/-- A stat of a path to which the kernel can walk tells absence from
presence. -/
theorem statNotExist_of_walk (env : Env) (p : String) (w : World)
    (h : env.walkErr p = none) :
    statNotExist env p w = ((w.fs p).isNone, w.record (.stat p)) := by
  unfold statNotExist osStat
  cases hp : w.fs p <;> simp [h, IsNotExist]

/-! ## The upgrade sequence -/

/-- The function `performUpgrade` makes the calls `stopStep`, `backupStep`,
`promoteStep`, then `restoreStep` or `startStep`, stopping at the first error
(after the compensating rename when step 3 fails). -/
theorem performUpgrade_eq_steps (env : Env) (chainFolder : String) (w : World) :
    performUpgrade env chainFolder w =
      match (stopStep env chainFolder w).1 with
      | some err => (some ("failed to stop containers: " ++ err), (stopStep env chainFolder w).2)
      | none =>
        match (backupStep env chainFolder w).1 with
        | some err =>
          (some ("failed to backup docker-compose.yml: " ++ err), (backupStep env chainFolder w).2)
        | none =>
          match (promoteStep env chainFolder w).1 with
          | some err =>
            match (restoreStep env chainFolder w).1 with
            | some restoreErr =>
              (some ("failed to promote next compose file AND failed to restore backup: "
                ++ err ++ ", restore error: " ++ restoreErr), (restoreStep env chainFolder w).2)
            | none =>
              (some ("failed to promote docker-compose.yml-next: " ++ err),
                (restoreStep env chainFolder w).2)
          | none =>
            match (startStep env chainFolder w).1 with
            | some err =>
              (some ("failed to start containers: " ++ err), (startStep env chainFolder w).2)
            | none => (none, (startStep env chainFolder w).2) := by
  unfold performUpgrade restoreStep startStep promoteStep backupStep stopStep
  rcases h1 : runCommand env chainFolder "docker-compose" ["down"] w with ⟨_ | e1, w1⟩
  · simp only []
    rcases h2 : osRename env (Join chainFolder dockerComposeFile)
      (Join chainFolder dockerComposeBackup) w1 with ⟨_ | e2, w2⟩
    · simp only []
      rcases h3 : osRename env (Join chainFolder dockerComposeNext)
        (Join chainFolder dockerComposeFile) w2 with ⟨_ | e3, w3⟩
      · simp only []
        rcases h4 : runCommand env chainFolder "docker-compose" ["up", "-d"] w3 with ⟨_ | e4, w4⟩
        · rfl
        · rfl
      · simp only []
        rcases h4 : osRename env (Join chainFolder dockerComposeBackup)
          (Join chainFolder dockerComposeFile) w3 with ⟨_ | e4, w4⟩
        · rfl
        · rfl
    · rfl
  · rfl

/-- The stop command fails or not as the operating system decides. -/
theorem stopStep_fst (env : Env) (chainFolder : String) (w : World) :
    (stopStep env chainFolder w).1 = env.execErr chainFolder "docker-compose" ["down"] := rfl

/-- The backup rename succeeds exactly when the kernel can walk to the active
and the backup path, the active file is there and the operating system does
not refuse. -/
theorem backupStep_none_iff (env : Env) (chainFolder : String) (w : World) :
    (backupStep env chainFolder w).1 = none ↔
      env.walkErr (Join chainFolder dockerComposeFile) = none ∧
      w.fs (Join chainFolder dockerComposeFile) ≠ none ∧
      env.walkErr (Join chainFolder dockerComposeBackup) = none ∧
      env.renameErr (Join chainFolder dockerComposeFile)
        (Join chainFolder dockerComposeBackup) = none := by
  unfold backupStep
  rw [osRename_none_iff]
  simp [stopStep, runCommand, World.record]

/-- Steps 1 and 2 do not touch the pending file. -/
theorem backupStep_fs_next (env : Env) (chainFolder : String) (w : World) :
    (backupStep env chainFolder w).2.fs (Join chainFolder dockerComposeNext) =
      w.fs (Join chainFolder dockerComposeNext) := by
  cases h : (backupStep env chainFolder w).1 with
  | none =>
    unfold backupStep at h ⊢
    rw [osRename_done_fs _ _ _ _ h]
    simp [moveNode, stopStep, runCommand, World.record]
  | some e =>
    unfold backupStep at h ⊢
    rw [osRename_failed_fs _ _ _ _ (by rw [h]; simp)]
    simp [stopStep, runCommand, World.record]

/-- The promote rename succeeds exactly when the kernel can walk to the
pending and the active path, the pending file is there and the operating
system does not refuse. -/
theorem promoteStep_none_iff (env : Env) (chainFolder : String) (w : World) :
    (promoteStep env chainFolder w).1 = none ↔
      env.walkErr (Join chainFolder dockerComposeNext) = none ∧
      w.fs (Join chainFolder dockerComposeNext) ≠ none ∧
      env.walkErr (Join chainFolder dockerComposeFile) = none ∧
      env.renameErr (Join chainFolder dockerComposeNext)
        (Join chainFolder dockerComposeFile) = none := by
  unfold promoteStep
  rw [osRename_none_iff, backupStep_fs_next]

/-! The worlds the steps leave. -/

theorem stopStep_snd (env : Env) (chainFolder : String) (w : World) :
    (stopStep env chainFolder w).2 =
      ⟨w.fs, w.calls ++ [.exec chainFolder "docker-compose" ["down"]]⟩ := rfl

theorem backupStep_calls (env : Env) (chainFolder : String) (w : World) :
    (backupStep env chainFolder w).2.calls =
      w.calls ++ [.exec chainFolder "docker-compose" ["down"],
        .rename (Join chainFolder dockerComposeFile) (Join chainFolder dockerComposeBackup)] := by
  unfold backupStep
  rw [osRename_calls, stopStep_snd]
  simp

theorem promoteStep_calls (env : Env) (chainFolder : String) (w : World) :
    (promoteStep env chainFolder w).2.calls =
      w.calls ++ [.exec chainFolder "docker-compose" ["down"],
        .rename (Join chainFolder dockerComposeFile) (Join chainFolder dockerComposeBackup),
        .rename (Join chainFolder dockerComposeNext) (Join chainFolder dockerComposeFile)] := by
  unfold promoteStep
  rw [osRename_calls, backupStep_calls]
  simp

theorem restoreStep_calls (env : Env) (chainFolder : String) (w : World) :
    (restoreStep env chainFolder w).2.calls =
      w.calls ++ [.exec chainFolder "docker-compose" ["down"],
        .rename (Join chainFolder dockerComposeFile) (Join chainFolder dockerComposeBackup),
        .rename (Join chainFolder dockerComposeNext) (Join chainFolder dockerComposeFile),
        .rename (Join chainFolder dockerComposeBackup) (Join chainFolder dockerComposeFile)] := by
  unfold restoreStep
  rw [osRename_calls, promoteStep_calls]
  simp

theorem startStep_calls (env : Env) (chainFolder : String) (w : World) :
    (startStep env chainFolder w).2.calls =
      w.calls ++ [.exec chainFolder "docker-compose" ["down"],
        .rename (Join chainFolder dockerComposeFile) (Join chainFolder dockerComposeBackup),
        .rename (Join chainFolder dockerComposeNext) (Join chainFolder dockerComposeFile),
        .exec chainFolder "docker-compose" ["up", "-d"]] := by
  have h : (startStep env chainFolder w).2.calls = (promoteStep env chainFolder w).2.calls ++
      [.exec chainFolder "docker-compose" ["up", "-d"]] := rfl
  rw [h, promoteStep_calls]
  simp

theorem backupStep_fs_done (env : Env) (chainFolder : String) (w : World)
    (h : (backupStep env chainFolder w).1 = none) :
    (backupStep env chainFolder w).2.fs =
      moveNode w.fs (Join chainFolder dockerComposeFile) (Join chainFolder dockerComposeBackup)
        (w.fs (Join chainFolder dockerComposeFile)) := by
  unfold backupStep at h ⊢
  rw [osRename_done_fs _ _ _ _ h, stopStep_snd]

theorem backupStep_fs_failed (env : Env) (chainFolder : String) (w : World) (e : String)
    (h : (backupStep env chainFolder w).1 = some e) :
    (backupStep env chainFolder w).2.fs = w.fs := by
  unfold backupStep at h ⊢
  rw [osRename_failed_fs _ _ _ _ (by rw [h]; simp), stopStep_snd]

theorem promoteStep_fs_done (env : Env) (chainFolder : String) (w : World)
    (h : (promoteStep env chainFolder w).1 = none) :
    (promoteStep env chainFolder w).2.fs =
      moveNode (backupStep env chainFolder w).2.fs (Join chainFolder dockerComposeNext)
        (Join chainFolder dockerComposeFile)
        ((backupStep env chainFolder w).2.fs (Join chainFolder dockerComposeNext)) := by
  unfold promoteStep at h ⊢
  rw [osRename_done_fs _ _ _ _ h]

theorem promoteStep_fs_failed (env : Env) (chainFolder : String) (w : World) (e : String)
    (h : (promoteStep env chainFolder w).1 = some e) :
    (promoteStep env chainFolder w).2.fs = (backupStep env chainFolder w).2.fs := by
  unfold promoteStep at h ⊢
  rw [osRename_failed_fs _ _ _ _ (by rw [h]; simp)]

theorem restoreStep_fs_done (env : Env) (chainFolder : String) (w : World)
    (h : (restoreStep env chainFolder w).1 = none) :
    (restoreStep env chainFolder w).2.fs =
      moveNode (promoteStep env chainFolder w).2.fs (Join chainFolder dockerComposeBackup)
        (Join chainFolder dockerComposeFile)
        ((promoteStep env chainFolder w).2.fs (Join chainFolder dockerComposeBackup)) := by
  unfold restoreStep at h ⊢
  rw [osRename_done_fs _ _ _ _ h]

theorem restoreStep_fs_failed (env : Env) (chainFolder : String) (w : World) (e : String)
    (h : (restoreStep env chainFolder w).1 = some e) :
    (restoreStep env chainFolder w).2.fs = (promoteStep env chainFolder w).2.fs := by
  unfold restoreStep at h ⊢
  rw [osRename_failed_fs _ _ _ _ (by rw [h]; simp)]

theorem startStep_fs (env : Env) (chainFolder : String) (w : World) :
    (startStep env chainFolder w).2.fs = (promoteStep env chainFolder w).2.fs := rfl

/-- Claim C1.  When the pending configuration is present and the stop
command, the backup rename, the promote rename and the start command all
succeed, `performUpgrade` returns no error and makes exactly four calls, in
this order: `docker-compose down` in the chain folder, the rename of the
active file to the backup path, the rename of the pending file to the active
path, `docker-compose up -d` in the chain folder.  Handling a marker event
makes the same four calls after its sleep and its stat, and no other rename
or command, and its call of `performUpgrade` returns no error. -/
theorem performUpgrade_all_succeed (env : Env) (chainFolder dataFolder : String) (w : World)
    (hnext : w.fs (Join chainFolder dockerComposeNext) ≠ none)
    (hstop : (stopStep env chainFolder w).1 = none)
    (hbackup : (backupStep env chainFolder w).1 = none)
    (hpromote : (promoteStep env chainFolder w).1 = none)
    (hstart : (startStep env chainFolder w).1 = none) :
    (performUpgrade env chainFolder w).1 = none ∧
    performed w (performUpgrade env chainFolder w).2 =
      [.exec chainFolder "docker-compose" ["down"],
       .rename (Join chainFolder dockerComposeFile) (Join chainFolder dockerComposeBackup),
       .rename (Join chainFolder dockerComposeNext) (Join chainFolder dockerComposeFile),
       .exec chainFolder "docker-compose" ["up", "-d"]] ∧
    (performUpgrade env chainFolder
      (statNotExist env (Join chainFolder dockerComposeNext) (sleep 100 w)).2).1 = none ∧
    performed w (handleUpgradeFile env chainFolder dataFolder w) =
      [.sleep 100,
       .stat (Join chainFolder dockerComposeNext),
       .exec chainFolder "docker-compose" ["down"],
       .rename (Join chainFolder dockerComposeFile) (Join chainFolder dockerComposeBackup),
       .rename (Join chainFolder dockerComposeNext) (Join chainFolder dockerComposeFile),
       .exec chainFolder "docker-compose" ["up", "-d"]] ∧
    (performed w (handleUpgradeFile env chainFolder dataFolder w)).filter Call.isAction =
      [.exec chainFolder "docker-compose" ["down"],
       .rename (Join chainFolder dockerComposeFile) (Join chainFolder dockerComposeBackup),
       .rename (Join chainFolder dockerComposeNext) (Join chainFolder dockerComposeFile),
       .exec chainFolder "docker-compose" ["up", "-d"]] := by
  have hs : env.execErr chainFolder "docker-compose" ["down"] = none := hstop
  have hu : env.execErr chainFolder "docker-compose" ["up", "-d"] = none := hstart
  obtain ⟨hwc, hc, hwb, hb⟩ := (backupStep_none_iff env chainFolder w).mp hbackup
  obtain ⟨hwn, -, -, hp⟩ := (promoteStep_none_iff env chainFolder w).mp hpromote
  obtain ⟨a, ha⟩ := Option.ne_none_iff_exists'.mp hc
  obtain ⟨n, hn⟩ := Option.ne_none_iff_exists'.mp hnext
  simp [performed, performUpgrade, handleUpgradeFile, statNotExist, osStat, IsNotExist, sleep,
    runCommand, osRename, World.record, moveNode, Call.isAction, ha, hn, hs, hb, hp, hu,
    hwc, hwb, hwn]

theorem performUpgrade_all_succeed_witness :
    (performUpgrade calmEnv "/chain" sampleWorld).1 = none ∧
    performed sampleWorld (handleUpgradeFile calmEnv "/chain" "/data" sampleWorld) =
      [.sleep 100,
       .stat "/chain/docker-compose.yml-next",
       .exec "/chain" "docker-compose" ["down"],
       .rename "/chain/docker-compose.yml" "/chain/docker-compose.yml-backup",
       .rename "/chain/docker-compose.yml-next" "/chain/docker-compose.yml",
       .exec "/chain" "docker-compose" ["up", "-d"]] :=
  have h := performUpgrade_all_succeed calmEnv "/chain" "/data" sampleWorld
    (by decide) rfl rfl rfl rfl
  ⟨h.1, h.2.2.2.1⟩

/-- Claim C2.  With the active file holding `a` and the pending file holding
`n` (and anything or nothing at the backup path), when the stop command and
both renames succeed, after `performUpgrade` the pending path is empty, the
backup path holds `a` and the active path holds `n`, every other path is as it
was, and the calls made are the four of the sequence, whether or not the start
command succeeds; the error returned is that of the start command, wrapped,
and no error when it succeeds. -/
theorem performUpgrade_promotes (env : Env) (chainFolder : String) (w : World) (a n : Node)
    (hcurrent : w.fs (Join chainFolder dockerComposeFile) = some a)
    (hnext : w.fs (Join chainFolder dockerComposeNext) = some n)
    (hstop : (stopStep env chainFolder w).1 = none)
    (hbackup : (backupStep env chainFolder w).1 = none)
    (hpromote : (promoteStep env chainFolder w).1 = none) :
    (performUpgrade env chainFolder w).2.fs (Join chainFolder dockerComposeNext) = none ∧
    (performUpgrade env chainFolder w).2.fs (Join chainFolder dockerComposeBackup) = some a ∧
    (performUpgrade env chainFolder w).2.fs (Join chainFolder dockerComposeFile) = some n ∧
    (∀ p, p ≠ Join chainFolder dockerComposeNext → p ≠ Join chainFolder dockerComposeBackup →
      p ≠ Join chainFolder dockerComposeFile → (performUpgrade env chainFolder w).2.fs p = w.fs p) ∧
    performed w (performUpgrade env chainFolder w).2 =
      [.exec chainFolder "docker-compose" ["down"],
       .rename (Join chainFolder dockerComposeFile) (Join chainFolder dockerComposeBackup),
       .rename (Join chainFolder dockerComposeNext) (Join chainFolder dockerComposeFile),
       .exec chainFolder "docker-compose" ["up", "-d"]] ∧
    (performUpgrade env chainFolder w).1 =
      (startStep env chainFolder w).1.map (fun err => "failed to start containers: " ++ err) := by
  have hs : env.execErr chainFolder "docker-compose" ["down"] = none := hstop
  obtain ⟨hwc, -, hwb, hb⟩ := (backupStep_none_iff env chainFolder w).mp hbackup
  obtain ⟨hwn, -, -, hp⟩ := (promoteStep_none_iff env chainFolder w).mp hpromote
  cases hu : env.execErr chainFolder "docker-compose" ["up", "-d"] <;>
    simp +contextual [performed, performUpgrade, startStep, promoteStep, backupStep, stopStep,
      runCommand, osRename, World.record, moveNode, hcurrent, hnext, hs, hb, hp, hu,
      hwc, hwb, hwn]

theorem performUpgrade_promotes_witness :
    (performUpgrade startFailsEnv "/chain" sampleWorld).2.fs "/chain/docker-compose.yml-next"
      = none ∧
    (performUpgrade startFailsEnv "/chain" sampleWorld).2.fs "/chain/docker-compose.yml-backup"
      = some (.file "image: v1") ∧
    (performUpgrade startFailsEnv "/chain" sampleWorld).2.fs "/chain/docker-compose.yml"
      = some (.file "image: v2") ∧
    (performUpgrade startFailsEnv "/chain" sampleWorld).1
      = some "failed to start containers: exit status 1" :=
  have h := performUpgrade_promotes startFailsEnv "/chain" sampleWorld
    (.file "image: v1") (.file "image: v2") rfl rfl rfl rfl rfl
  ⟨h.1, h.2.1, h.2.2.1, h.2.2.2.2.2⟩

/-- Claim C3.  When the stop command and the backup rename succeed and the
promote rename fails with `promoteErr`, `performUpgrade` makes the
compensating rename of the backup to the active path; when that succeeds, the
active path holds what it held before the upgrade, the calls made are the stop
command and the three renames, the start command is not among them, and the
error returned is the promote error, wrapped. -/
theorem performUpgrade_restores (env : Env) (chainFolder : String) (w : World) (a : Node)
    (promoteErr : String)
    (hcurrent : w.fs (Join chainFolder dockerComposeFile) = some a)
    (hstop : (stopStep env chainFolder w).1 = none)
    (hbackup : (backupStep env chainFolder w).1 = none)
    (hpromote : (promoteStep env chainFolder w).1 = some promoteErr)
    (hrestore : (restoreStep env chainFolder w).1 = none) :
    performed w (performUpgrade env chainFolder w).2 =
      [.exec chainFolder "docker-compose" ["down"],
       .rename (Join chainFolder dockerComposeFile) (Join chainFolder dockerComposeBackup),
       .rename (Join chainFolder dockerComposeNext) (Join chainFolder dockerComposeFile),
       .rename (Join chainFolder dockerComposeBackup) (Join chainFolder dockerComposeFile)] ∧
    (performUpgrade env chainFolder w).2.fs (Join chainFolder dockerComposeFile) = some a ∧
    (performUpgrade env chainFolder w).2.fs (Join chainFolder dockerComposeNext) =
      w.fs (Join chainFolder dockerComposeNext) ∧
    Call.exec chainFolder "docker-compose" ["up", "-d"] ∉
      performed w (performUpgrade env chainFolder w).2 ∧
    (performUpgrade env chainFolder w).1 =
      some ("failed to promote docker-compose.yml-next: " ++ promoteErr) := by
  have hs : env.execErr chainFolder "docker-compose" ["down"] = none := hstop
  obtain ⟨hwc, -, hwb, hb⟩ := (backupStep_none_iff env chainFolder w).mp hbackup
  cases hwn : env.walkErr (Join chainFolder dockerComposeNext) <;>
  cases hn : w.fs (Join chainFolder dockerComposeNext) <;>
  cases hp : env.renameErr (Join chainFolder dockerComposeNext)
    (Join chainFolder dockerComposeFile) <;>
  cases hr : env.renameErr (Join chainFolder dockerComposeBackup)
    (Join chainFolder dockerComposeFile) <;>
  simp [performed, performUpgrade, restoreStep, promoteStep, backupStep, stopStep,
    runCommand, osRename, World.record, moveNode, hcurrent, hs, hb, hn, hp, hr, hwc, hwb, hwn]
    at hpromote hrestore ⊢ <;>
  simp [hpromote]

theorem performUpgrade_restores_witness :
    (performUpgrade promoteRefusedEnv "/chain" sampleWorld).2.fs "/chain/docker-compose.yml"
      = some (.file "image: v1") ∧
    (performUpgrade promoteRefusedEnv "/chain" sampleWorld).1 =
      some ("failed to promote docker-compose.yml-next: " ++
        "rename /chain/docker-compose.yml-next /chain/docker-compose.yml: permission denied") :=
  have h := performUpgrade_restores promoteRefusedEnv "/chain" sampleWorld (.file "image: v1")
    "rename /chain/docker-compose.yml-next /chain/docker-compose.yml: permission denied"
    rfl rfl rfl rfl rfl
  ⟨h.2.1, h.2.2.2.2⟩

/-- Claim C4.  When the stop command and the backup rename succeed, the
promote rename fails with `promoteErr` and the compensating rename fails with
`restoreErr`, after `performUpgrade` nothing is at the active path, the start
command has not been run, and the error returned is the double-failure error
with both `promoteErr` and `restoreErr` in it. -/
theorem performUpgrade_double_failure (env : Env) (chainFolder : String) (w : World)
    (promoteErr restoreErr : String)
    (hstop : (stopStep env chainFolder w).1 = none)
    (hbackup : (backupStep env chainFolder w).1 = none)
    (hpromote : (promoteStep env chainFolder w).1 = some promoteErr)
    (hrestore : (restoreStep env chainFolder w).1 = some restoreErr) :
    (performUpgrade env chainFolder w).2.fs (Join chainFolder dockerComposeFile) = none ∧
    performed w (performUpgrade env chainFolder w).2 =
      [.exec chainFolder "docker-compose" ["down"],
       .rename (Join chainFolder dockerComposeFile) (Join chainFolder dockerComposeBackup),
       .rename (Join chainFolder dockerComposeNext) (Join chainFolder dockerComposeFile),
       .rename (Join chainFolder dockerComposeBackup) (Join chainFolder dockerComposeFile)] ∧
    Call.exec chainFolder "docker-compose" ["up", "-d"] ∉
      performed w (performUpgrade env chainFolder w).2 ∧
    (performUpgrade env chainFolder w).1 =
      some ("failed to promote next compose file AND failed to restore backup: "
        ++ promoteErr ++ ", restore error: " ++ restoreErr) := by
  have hs : env.execErr chainFolder "docker-compose" ["down"] = none := hstop
  obtain ⟨hwc, hc, hwb, hb⟩ := (backupStep_none_iff env chainFolder w).mp hbackup
  obtain ⟨a, ha⟩ := Option.ne_none_iff_exists'.mp hc
  cases hwn : env.walkErr (Join chainFolder dockerComposeNext) <;>
  cases hn : w.fs (Join chainFolder dockerComposeNext) <;>
  cases hp : env.renameErr (Join chainFolder dockerComposeNext)
    (Join chainFolder dockerComposeFile) <;>
  cases hr : env.renameErr (Join chainFolder dockerComposeBackup)
    (Join chainFolder dockerComposeFile) <;>
  simp [performed, performUpgrade, restoreStep, promoteStep, backupStep, stopStep,
    runCommand, osRename, World.record, moveNode, ha, hs, hb, hn, hp, hr, hwc, hwb, hwn]
    at hpromote hrestore ⊢ <;>
  simp [hpromote, hrestore]

theorem performUpgrade_double_failure_witness :
    (performUpgrade activeLockedEnv "/chain" sampleWorld).2.fs "/chain/docker-compose.yml"
      = none ∧
    (performUpgrade activeLockedEnv "/chain" sampleWorld).1 =
      some ("failed to promote next compose file AND failed to restore backup: "
        ++ "rename /chain/docker-compose.yml-next /chain/docker-compose.yml: permission denied"
        ++ ", restore error: "
        ++ "rename /chain/docker-compose.yml-backup /chain/docker-compose.yml: permission denied") :=
  have h := performUpgrade_double_failure activeLockedEnv "/chain" sampleWorld
    "rename /chain/docker-compose.yml-next /chain/docker-compose.yml: permission denied"
    "rename /chain/docker-compose.yml-backup /chain/docker-compose.yml: permission denied"
    rfl rfl rfl rfl
  ⟨h.1, h.2.2.2⟩

/-- Claim C6.  When the stop command fails with `err`, `performUpgrade`
returns that error, wrapped, having made that one call: no rename, no start
command, and the filesystem is what it was. -/
theorem performUpgrade_stop_fails (env : Env) (chainFolder : String) (w : World) (err : String)
    (hstop : (stopStep env chainFolder w).1 = some err) :
    (performUpgrade env chainFolder w).1 = some ("failed to stop containers: " ++ err) ∧
    performed w (performUpgrade env chainFolder w).2 =
      [.exec chainFolder "docker-compose" ["down"]] ∧
    (performUpgrade env chainFolder w).2.fs = w.fs := by
  have hs : env.execErr chainFolder "docker-compose" ["down"] = some err := hstop
  simp [performed, performUpgrade, runCommand, World.record, hs]

theorem performUpgrade_stop_fails_witness :
    (performUpgrade stopFailsEnv "/chain" sampleWorld).1 =
      some "failed to stop containers: exit status 1" ∧
    performed sampleWorld (performUpgrade stopFailsEnv "/chain" sampleWorld).2 =
      [.exec "/chain" "docker-compose" ["down"]] ∧
    (performUpgrade stopFailsEnv "/chain" sampleWorld).2.fs = sampleWorld.fs :=
  performUpgrade_stop_fails stopFailsEnv "/chain" sampleWorld "exit status 1" rfl

/-- Claim C10.  The active configuration is never lost: when the active path
holds `a`, then whatever the outcome of the stop command, the backup rename,
the promote rename, the compensating rename and the start command, after
`performUpgrade` the active path or the backup path holds `a`; and the start
command is among the calls made exactly when the stop command, the backup
rename and the promote rename all succeeded. -/
theorem performUpgrade_keeps_active (env : Env) (chainFolder : String) (w : World) (a : Node)
    (hcurrent : w.fs (Join chainFolder dockerComposeFile) = some a) :
    ((performUpgrade env chainFolder w).2.fs (Join chainFolder dockerComposeFile) = some a ∨
      (performUpgrade env chainFolder w).2.fs (Join chainFolder dockerComposeBackup) = some a) ∧
    (Call.exec chainFolder "docker-compose" ["up", "-d"] ∈
        performed w (performUpgrade env chainFolder w).2 ↔
      (stopStep env chainFolder w).1 = none ∧ (backupStep env chainFolder w).1 = none ∧
        (promoteStep env chainFolder w).1 = none) := by
  rw [performUpgrade_eq_steps]
  cases h1 : (stopStep env chainFolder w).1 with
  | some e1 => simp [performed, stopStep_snd, hcurrent]
  | none =>
    cases h2 : (backupStep env chainFolder w).1 with
    | some e2 =>
      simp [performed, backupStep_calls, backupStep_fs_failed _ _ _ _ h2, hcurrent]
    | none =>
      have hb := backupStep_fs_done env chainFolder w h2
      cases h3 : (promoteStep env chainFolder w).1 with
      | some e3 =>
        have hp := promoteStep_fs_failed env chainFolder w e3 h3
        cases h4 : (restoreStep env chainFolder w).1 with
        | some e4 =>
          simp [performed, restoreStep_calls, restoreStep_fs_failed _ _ _ _ h4, hp, hb, moveNode,
            hcurrent]
        | none =>
          simp [performed, restoreStep_calls, restoreStep_fs_done _ _ _ h4, hp, hb, moveNode,
            hcurrent]
      | none =>
        have hp := promoteStep_fs_done env chainFolder w h3
        cases h4 : (startStep env chainFolder w).1 <;>
          simp [performed, startStep_calls, startStep_fs, hp, hb, moveNode, hcurrent]

theorem performUpgrade_keeps_active_witness :
    (performUpgrade activeLockedEnv "/chain" sampleWorld).2.fs "/chain/docker-compose.yml"
      = some (.file "image: v1") ∨
    (performUpgrade activeLockedEnv "/chain" sampleWorld).2.fs "/chain/docker-compose.yml-backup"
      = some (.file "image: v1") :=
  (performUpgrade_keeps_active activeLockedEnv "/chain" sampleWorld (.file "image: v1") rfl).1

/-! ## The record of calls only grows -/

theorem statNotExist_snd (env : Env) (p : String) (w : World) :
    (statNotExist env p w).2 = ⟨w.fs, w.calls ++ [.stat p]⟩ := by
  unfold statNotExist osStat
  cases env.walkErr p <;> cases w.fs p <;> rfl

theorem performUpgrade_calls (env : Env) (chainFolder : String) (w : World) :
    ∃ l, (performUpgrade env chainFolder w).2.calls =
      w.calls ++ Call.exec chainFolder "docker-compose" ["down"] :: l := by
  rw [performUpgrade_eq_steps]
  split
  · exact ⟨[], by rw [stopStep_snd]⟩
  · split
    · exact ⟨_, by rw [backupStep_calls]⟩
    · split
      · split <;> exact ⟨_, by rw [restoreStep_calls]⟩
      · split <;> exact ⟨_, by rw [startStep_calls]⟩

/-- What `handleUpgradeFile` does, by the answer of the stat. -/
theorem handleUpgradeFile_eq (env : Env) (chainFolder dataFolder : String) (w : World) :
    handleUpgradeFile env chainFolder dataFolder w =
      if (statNotExist env (Join chainFolder dockerComposeNext) (sleep 100 w)).1 = true then
        ⟨w.fs, w.calls ++ [.sleep 100, .stat (Join chainFolder dockerComposeNext)]⟩
      else
        (performUpgrade env chainFolder
          ⟨w.fs, w.calls ++ [.sleep 100, .stat (Join chainFolder dockerComposeNext)]⟩).2 := by
  have h2 := statNotExist_snd env (Join chainFolder dockerComposeNext) (sleep 100 w)
  unfold handleUpgradeFile
  rcases h : statNotExist env (Join chainFolder dockerComposeNext) (sleep 100 w) with ⟨b, w1⟩
  rw [h] at h2
  simp only [sleep, World.record, List.append_assoc, List.singleton_append] at h2
  subst h2
  cases b <;> simp [h]

/-- Handling a marker event begins with the sleep and the stat of the pending
path, whatever follows. -/
theorem handleUpgradeFile_calls (env : Env) (chainFolder dataFolder : String) (w : World) :
    ∃ l, (handleUpgradeFile env chainFolder dataFolder w).calls =
      w.calls ++ Call.sleep 100 :: Call.stat (Join chainFolder dockerComposeNext) :: l := by
  rw [handleUpgradeFile_eq]
  split
  · exact ⟨[], rfl⟩
  · obtain ⟨l, hl⟩ := performUpgrade_calls env chainFolder
      ⟨w.fs, w.calls ++ [.sleep 100, .stat (Join chainFolder dockerComposeNext)]⟩
    exact ⟨Call.exec chainFolder "docker-compose" ["down"] :: l, by rw [hl]; simp⟩

theorem handleUpgradeFile_ne_self (env : Env) (chainFolder dataFolder : String) (w : World) :
    handleUpgradeFile env chainFolder dataFolder w ≠ w := by
  obtain ⟨l, hl⟩ := handleUpgradeFile_calls env chainFolder dataFolder w
  intro h
  rw [h] at hl
  have := congrArg List.length hl
  simp at this

/-! ## The watch loop -/

/-- Claim C8.  For an event received by the watch loop, `handleUpgradeFile`
runs exactly when the event has the create or the write bit and the base name
of its path is `upgrade-info.json`; otherwise the event leaves the world as it
was.  In particular a create or a write of the marker file in any folder runs
it, and events that are only a remove, a rename or a chmod are dropped
whatever their path.  The loop passes every event it receives through this
filter before it goes on. -/
theorem handleEvent_filter (env : Env) (chainFolder dataFolder : String) (event : Event)
    (rest : List Tick) (w : World) :
    (handleEvent env chainFolder dataFolder event w =
        handleUpgradeFile env chainFolder dataFolder w ↔
      (event.Has Op.Create = true ∨ event.Has Op.Write = true) ∧
        Base event.Name = upgradeInfoFile) ∧
    (handleEvent env chainFolder dataFolder event w = w ↔
      ¬ ((event.Has Op.Create = true ∨ event.Has Op.Write = true) ∧
        Base event.Name = upgradeInfoFile)) ∧
    (Call.sleep 100 ∈ performed w (handleEvent env chainFolder dataFolder event w) ↔
      (event.Has Op.Create = true ∨ event.Has Op.Write = true) ∧
        Base event.Name = upgradeInfoFile) ∧
    (∀ dir, handleEvent env chainFolder dataFolder ⟨Join dir upgradeInfoFile, Op.Create⟩ w =
      handleUpgradeFile env chainFolder dataFolder w) ∧
    (∀ dir, handleEvent env chainFolder dataFolder ⟨Join dir upgradeInfoFile, Op.Write⟩ w =
      handleUpgradeFile env chainFolder dataFolder w) ∧
    (∀ name, handleEvent env chainFolder dataFolder ⟨name, Op.Remove⟩ w = w) ∧
    (∀ name, handleEvent env chainFolder dataFolder ⟨name, Op.Rename⟩ w = w) ∧
    (∀ name, handleEvent env chainFolder dataFolder ⟨name, Op.Chmod⟩ w = w) ∧
    watchLoop chainFolder dataFolder (.events env (some event) :: rest) w =
      watchLoop chainFolder dataFolder rest (handleEvent env chainFolder dataFolder event w) := by
  have hne := handleUpgradeFile_ne_self env chainFolder dataFolder w
  obtain ⟨l, hl⟩ := handleUpgradeFile_calls env chainFolder dataFolder w
  refine ⟨?_, ?_, ?_, ?_, ?_, ?_, ?_, ?_, rfl⟩
  · unfold handleEvent
    by_cases hw : event.Has Op.Write = true <;> by_cases hc : event.Has Op.Create = true <;>
      by_cases hb : Base event.Name = upgradeInfoFile <;> simp [hw, hc, hb, hne.symm]
  · unfold handleEvent
    by_cases hw : event.Has Op.Write = true <;> by_cases hc : event.Has Op.Create = true <;>
      by_cases hb : Base event.Name = upgradeInfoFile <;> simp [hw, hc, hb, hne]
  · unfold handleEvent
    by_cases hw : event.Has Op.Write = true <;> by_cases hc : event.Has Op.Create = true <;>
      by_cases hb : Base event.Name = upgradeInfoFile <;>
      simp [hw, hc, hb, performed, hl]
  · intro dir
    simp [handleEvent, Event.Has, Op.Write, Op.Create, Base_Join_upgradeInfoFile]
  · intro dir
    simp [handleEvent, Event.Has, Op.Write, Op.Create, Base_Join_upgradeInfoFile]
  · intro name
    simp [handleEvent, Event.Has, Op.Remove, Op.Write, Op.Create]
  · intro name
    simp [handleEvent, Event.Has, Op.Rename, Op.Write, Op.Create]
  · intro name
    simp [handleEvent, Event.Has, Op.Chmod, Op.Write, Op.Create]

/-! ## Two marker events in a row -/

/-- A marker event handled with the pending file present and every step
succeeding: the world it leaves. -/
theorem handleUpgradeFile_done (env : Env) (chainFolder dataFolder : String) (w : World)
    (a n : Node)
    (hcurrent : w.fs (Join chainFolder dockerComposeFile) = some a)
    (hnext : w.fs (Join chainFolder dockerComposeNext) = some n)
    (hwc : env.walkErr (Join chainFolder dockerComposeFile) = none)
    (hwb : env.walkErr (Join chainFolder dockerComposeBackup) = none)
    (hwn : env.walkErr (Join chainFolder dockerComposeNext) = none)
    (hs : env.execErr chainFolder "docker-compose" ["down"] = none)
    (hb : env.renameErr (Join chainFolder dockerComposeFile)
      (Join chainFolder dockerComposeBackup) = none)
    (hp : env.renameErr (Join chainFolder dockerComposeNext)
      (Join chainFolder dockerComposeFile) = none)
    (hu : env.execErr chainFolder "docker-compose" ["up", "-d"] = none) :
    handleUpgradeFile env chainFolder dataFolder w =
      { fs := moveNode (moveNode w.fs (Join chainFolder dockerComposeFile)
            (Join chainFolder dockerComposeBackup) (some a))
          (Join chainFolder dockerComposeNext) (Join chainFolder dockerComposeFile) (some n)
        calls := w.calls ++
          [.sleep 100,
           .stat (Join chainFolder dockerComposeNext),
           .exec chainFolder "docker-compose" ["down"],
           .rename (Join chainFolder dockerComposeFile) (Join chainFolder dockerComposeBackup),
           .rename (Join chainFolder dockerComposeNext) (Join chainFolder dockerComposeFile),
           .exec chainFolder "docker-compose" ["up", "-d"]] } := by
  simp [performUpgrade, handleUpgradeFile, statNotExist, osStat, IsNotExist, sleep, runCommand,
    osRename, World.record, moveNode, hcurrent, hnext, hs, hb, hp, hu, hwc, hwb, hwn]

/-- A marker event handled with no pending file, on a pending path to which
the kernel can walk: the world it leaves. -/
theorem handleUpgradeFile_idle (env : Env) (chainFolder dataFolder : String) (w : World)
    (hwn : env.walkErr (Join chainFolder dockerComposeNext) = none)
    (hnext : w.fs (Join chainFolder dockerComposeNext) = none) :
    handleUpgradeFile env chainFolder dataFolder w =
      { fs := w.fs
        calls := w.calls ++ [.sleep 100, .stat (Join chainFolder dockerComposeNext)] } := by
  simp [handleUpgradeFile, statNotExist, osStat, IsNotExist, sleep, World.record, hnext, hwn]

/-! The outcome of a call depends on the filesystem, not on the record of
earlier calls. -/

theorem osRename_congr (env : Env) (src dst : String) (w v : World) (h : w.fs = v.fs) :
    (osRename env src dst w).1 = (osRename env src dst v).1 ∧
    (osRename env src dst w).2.fs = (osRename env src dst v).2.fs := by
  unfold osRename
  rw [h]
  cases env.walkErr src <;> cases v.fs src <;> cases env.walkErr dst <;>
    cases env.renameErr src dst <;> simp [World.record, h]

theorem backupStep_congr (env : Env) (chainFolder : String) (w v : World) (h : w.fs = v.fs) :
    (backupStep env chainFolder w).1 = (backupStep env chainFolder v).1 ∧
    (backupStep env chainFolder w).2.fs = (backupStep env chainFolder v).2.fs :=
  osRename_congr env _ _ _ _ h

theorem promoteStep_congr (env : Env) (chainFolder : String) (w v : World) (h : w.fs = v.fs) :
    (promoteStep env chainFolder w).1 = (promoteStep env chainFolder v).1 ∧
    (promoteStep env chainFolder w).2.fs = (promoteStep env chainFolder v).2.fs :=
  osRename_congr env _ _ _ _ (backupStep_congr env chainFolder w v h).2

theorem restoreStep_congr (env : Env) (chainFolder : String) (w v : World) (h : w.fs = v.fs) :
    (restoreStep env chainFolder w).1 = (restoreStep env chainFolder v).1 ∧
    (restoreStep env chainFolder w).2.fs = (restoreStep env chainFolder v).2.fs :=
  osRename_congr env _ _ _ _ (promoteStep_congr env chainFolder w v h).2

theorem performUpgrade_congr (env : Env) (chainFolder : String) (w v : World) (h : w.fs = v.fs) :
    (performUpgrade env chainFolder w).2.fs = (performUpgrade env chainFolder v).2.fs ∧
    performed w (performUpgrade env chainFolder w).2 =
      performed v (performUpgrade env chainFolder v).2 := by
  have e1 : (stopStep env chainFolder w).1 = (stopStep env chainFolder v).1 := rfl
  have e5 : (startStep env chainFolder w).1 = (startStep env chainFolder v).1 := rfl
  obtain ⟨e2, f2⟩ := backupStep_congr env chainFolder w v h
  obtain ⟨e3, f3⟩ := promoteStep_congr env chainFolder w v h
  obtain ⟨e4, f4⟩ := restoreStep_congr env chainFolder w v h
  rw [performUpgrade_eq_steps, performUpgrade_eq_steps, e1, e2, e3, e4, e5]
  cases (stopStep env chainFolder v).1 with
  | some _ => simp [performed, stopStep_snd, h]
  | none =>
    cases (backupStep env chainFolder v).1 with
    | some _ => simp [performed, backupStep_calls, f2]
    | none =>
      cases (promoteStep env chainFolder v).1 with
      | some _ =>
        cases (restoreStep env chainFolder v).1 <;> simp [performed, restoreStep_calls, f4]
      | none =>
        cases (startStep env chainFolder v).1 <;>
          simp [performed, startStep_calls, startStep_fs, f3]

/-- What `handleUpgradeFile` does is decided by the filesystem and the
operating system alone: the record of earlier calls changes neither the
filesystem it leaves nor the calls it makes. -/
theorem handleUpgradeFile_frame (env : Env) (chainFolder dataFolder : String) (fs : FS)
    (calls calls2 : List Call) :
    (handleUpgradeFile env chainFolder dataFolder ⟨fs, calls⟩).fs =
      (handleUpgradeFile env chainFolder dataFolder ⟨fs, calls2⟩).fs ∧
    performed ⟨fs, calls⟩ (handleUpgradeFile env chainFolder dataFolder ⟨fs, calls⟩) =
      performed ⟨fs, calls2⟩ (handleUpgradeFile env chainFolder dataFolder ⟨fs, calls2⟩) := by
  have hb : (statNotExist env (Join chainFolder dockerComposeNext) (sleep 100 ⟨fs, calls⟩)).1 =
      (statNotExist env (Join chainFolder dockerComposeNext) (sleep 100 ⟨fs, calls2⟩)).1 := by
    unfold statNotExist osStat
    cases env.walkErr (Join chainFolder dockerComposeNext) <;>
      cases hf : fs (Join chainFolder dockerComposeNext) <;> simp [sleep, World.record, hf]
  rw [handleUpgradeFile_eq, handleUpgradeFile_eq, hb]
  split
  · simp [performed]
  · obtain ⟨hf, hp⟩ := performUpgrade_congr env chainFolder
      ⟨fs, calls ++ [.sleep 100, .stat (Join chainFolder dockerComposeNext)]⟩
      ⟨fs, calls2 ++ [.sleep 100, .stat (Join chainFolder dockerComposeNext)]⟩ rfl
    refine ⟨hf, ?_⟩
    obtain ⟨l, hl⟩ := performUpgrade_calls env chainFolder
      ⟨fs, calls ++ [.sleep 100, .stat (Join chainFolder dockerComposeNext)]⟩
    obtain ⟨l2, hl2⟩ := performUpgrade_calls env chainFolder
      ⟨fs, calls2 ++ [.sleep 100, .stat (Join chainFolder dockerComposeNext)]⟩
    simp only [performed, hl, hl2] at hp ⊢
    simp at hp ⊢
    exact hp

/-- Claim C9.  Two marker events received one after the other are handled as
two runs of `handleUpgradeFile`, the second on the world the first left; what
a run does depends on the filesystem and the operating system only, not on the
record of earlier calls.  After a first upgrade in which every step succeeded,
a second marker event with no new pending file makes a sleep and a stat and
nothing else and leaves the filesystem as it is; when another process has
written a new pending file in between and every step succeeds again, the
second event makes the four calls of the sequence again. -/
theorem two_marker_events (env1 env2 : Env) (chainFolder dataFolder : String)
    (e1 e2 : Event) (w : World) (content : String)
    (hm1 : (e1.Has Op.Create = true ∨ e1.Has Op.Write = true) ∧ Base e1.Name = upgradeInfoFile)
    (hm2 : (e2.Has Op.Create = true ∨ e2.Has Op.Write = true) ∧ Base e2.Name = upgradeInfoFile)
    (hnext : w.fs (Join chainFolder dockerComposeNext) ≠ none)
    (hstop1 : (stopStep env1 chainFolder w).1 = none)
    (hbackup1 : (backupStep env1 chainFolder w).1 = none)
    (hpromote1 : (promoteStep env1 chainFolder w).1 = none)
    (hstart1 : (startStep env1 chainFolder w).1 = none)
    (hstop2 : (stopStep env2 chainFolder
      ((handleUpgradeFile env1 chainFolder dataFolder w).changed
        (writeFile (Join chainFolder dockerComposeNext) content))).1 = none)
    (hbackup2 : (backupStep env2 chainFolder
      ((handleUpgradeFile env1 chainFolder dataFolder w).changed
        (writeFile (Join chainFolder dockerComposeNext) content))).1 = none)
    (hpromote2 : (promoteStep env2 chainFolder
      ((handleUpgradeFile env1 chainFolder dataFolder w).changed
        (writeFile (Join chainFolder dockerComposeNext) content))).1 = none)
    (hstart2 : (startStep env2 chainFolder
      ((handleUpgradeFile env1 chainFolder dataFolder w).changed
        (writeFile (Join chainFolder dockerComposeNext) content))).1 = none) :
    watchLoop chainFolder dataFolder [.events env1 (some e1), .events env2 (some e2)] w =
      (false, handleUpgradeFile env2 chainFolder dataFolder
        (handleUpgradeFile env1 chainFolder dataFolder w)) ∧
    (∀ fs calls calls2,
      (handleUpgradeFile env2 chainFolder dataFolder ⟨fs, calls⟩).fs =
        (handleUpgradeFile env2 chainFolder dataFolder ⟨fs, calls2⟩).fs ∧
      performed ⟨fs, calls⟩ (handleUpgradeFile env2 chainFolder dataFolder ⟨fs, calls⟩) =
        performed ⟨fs, calls2⟩ (handleUpgradeFile env2 chainFolder dataFolder ⟨fs, calls2⟩)) ∧
    performed (handleUpgradeFile env1 chainFolder dataFolder w)
        (handleUpgradeFile env2 chainFolder dataFolder
          (handleUpgradeFile env1 chainFolder dataFolder w)) =
      [.sleep 100, .stat (Join chainFolder dockerComposeNext)] ∧
    (handleUpgradeFile env2 chainFolder dataFolder
        (handleUpgradeFile env1 chainFolder dataFolder w)).fs =
      (handleUpgradeFile env1 chainFolder dataFolder w).fs ∧
    watchLoop chainFolder dataFolder
        [.events env1 (some e1),
         .outside (writeFile (Join chainFolder dockerComposeNext) content),
         .events env2 (some e2)] w =
      (false, handleUpgradeFile env2 chainFolder dataFolder
        ((handleUpgradeFile env1 chainFolder dataFolder w).changed
          (writeFile (Join chainFolder dockerComposeNext) content))) ∧
    (performed
        ((handleUpgradeFile env1 chainFolder dataFolder w).changed
          (writeFile (Join chainFolder dockerComposeNext) content))
        (handleUpgradeFile env2 chainFolder dataFolder
          ((handleUpgradeFile env1 chainFolder dataFolder w).changed
            (writeFile (Join chainFolder dockerComposeNext) content)))).filter Call.isAction =
      [.exec chainFolder "docker-compose" ["down"],
       .rename (Join chainFolder dockerComposeFile) (Join chainFolder dockerComposeBackup),
       .rename (Join chainFolder dockerComposeNext) (Join chainFolder dockerComposeFile),
       .exec chainFolder "docker-compose" ["up", "-d"]] := by
  have hs1 : env1.execErr chainFolder "docker-compose" ["down"] = none := hstop1
  have hu1 : env1.execErr chainFolder "docker-compose" ["up", "-d"] = none := hstart1
  obtain ⟨hwc1, hc, hwb1, hb1⟩ := (backupStep_none_iff env1 chainFolder w).mp hbackup1
  obtain ⟨hwn1, -, -, hp1⟩ := (promoteStep_none_iff env1 chainFolder w).mp hpromote1
  obtain ⟨a, ha⟩ := Option.ne_none_iff_exists'.mp hc
  obtain ⟨n, hn⟩ := Option.ne_none_iff_exists'.mp hnext
  have hs2 : env2.execErr chainFolder "docker-compose" ["down"] = none := hstop2
  have hu2 : env2.execErr chainFolder "docker-compose" ["up", "-d"] = none := hstart2
  obtain ⟨hwc2, -, hwb2, hb2⟩ := (backupStep_none_iff env2 chainFolder _).mp hbackup2
  obtain ⟨hwn2, -, -, hp2⟩ := (promoteStep_none_iff env2 chainFolder _).mp hpromote2
  have hw1 := handleUpgradeFile_done env1 chainFolder dataFolder w a n ha hn hwc1 hwb1 hwn1
    hs1 hb1 hp1 hu1
  have hev1 : handleEvent env1 chainFolder dataFolder e1 w =
      handleUpgradeFile env1 chainFolder dataFolder w := by
    rcases hm1 with ⟨h | h, hb⟩ <;> simp [handleEvent, h, hb]
  have hev2 : ∀ v, handleEvent env2 chainFolder dataFolder e2 v =
      handleUpgradeFile env2 chainFolder dataFolder v := by
    intro v
    rcases hm2 with ⟨h | h, hb⟩ <;> simp [handleEvent, h, hb]
  have hidle : (handleUpgradeFile env1 chainFolder dataFolder w).fs
      (Join chainFolder dockerComposeNext) = none := by
    rw [hw1]; simp [moveNode]
  have hw2 := handleUpgradeFile_idle env2 chainFolder dataFolder _ hwn2 hidle
  have hw3 := handleUpgradeFile_done env2 chainFolder dataFolder
    ((handleUpgradeFile env1 chainFolder dataFolder w).changed
      (writeFile (Join chainFolder dockerComposeNext) content)) n (.file content)
    (by rw [hw1]; simp [World.changed, writeFile, moveNode])
    (by simp [World.changed, writeFile]) hwc2 hwb2 hwn2 hs2 hb2 hp2 hu2
  refine ⟨?_, handleUpgradeFile_frame env2 chainFolder dataFolder, ?_, ?_, ?_, ?_⟩
  · simp [watchLoop, hev1, hev2]
  · rw [hw2]; simp [performed]
  · rw [hw2]
  · simp [watchLoop, hev1, hev2]
  · rw [hw3]; simp [performed, World.changed, Call.isAction]

theorem two_marker_events_witness :
    performed (handleUpgradeFile calmEnv "/chain" "/data" sampleWorld)
        (handleUpgradeFile calmEnv "/chain" "/data"
          (handleUpgradeFile calmEnv "/chain" "/data" sampleWorld)) =
      [.sleep 100, .stat "/chain/docker-compose.yml-next"] ∧
    (performed
        ((handleUpgradeFile calmEnv "/chain" "/data" sampleWorld).changed
          (writeFile "/chain/docker-compose.yml-next" "image: v3"))
        (handleUpgradeFile calmEnv "/chain" "/data"
          ((handleUpgradeFile calmEnv "/chain" "/data" sampleWorld).changed
            (writeFile "/chain/docker-compose.yml-next" "image: v3")))).filter Call.isAction =
      [.exec "/chain" "docker-compose" ["down"],
       .rename "/chain/docker-compose.yml" "/chain/docker-compose.yml-backup",
       .rename "/chain/docker-compose.yml-next" "/chain/docker-compose.yml",
       .exec "/chain" "docker-compose" ["up", "-d"]] :=
  have h := two_marker_events calmEnv calmEnv "/chain" "/data"
    ⟨"/data/upgrade-info.json", Op.Create⟩ ⟨"/data/upgrade-info.json", Op.Write⟩
    sampleWorld "image: v3"
    (by decide) (by decide) (by decide) rfl rfl rfl rfl rfl rfl rfl rfl
  ⟨h.2.2.1, h.2.2.2.2.2⟩

/-! ## Paths that are too long -/

theorem utf8Len_replicate_a (k : Nat) : String.utf8Len (List.replicate k 'a') = k := by
  induction k with
  | zero => rfl
  | succ k ih =>
    rw [List.replicate_succ, String.utf8Len_cons, ih]
    rfl

theorem utf8Len_flatten_replicate (n : Nat) (l : List Char) :
    String.utf8Len (List.replicate n l).flatten = n * String.utf8Len l := by
  induction n with
  | zero => simp
  | succ n ih =>
    rw [List.replicate_succ, List.flatten_cons, String.utf8Len_append, ih]
    ring

theorem nestedFolder_size (names : Nat) : (nestedFolder names).utf8ByteSize = names * 97 := by
  unfold nestedFolder
  rw [String.utf8ByteSize_mk, utf8Len_flatten_replicate, String.utf8Len_cons,
    utf8Len_replicate_a]
  rfl

theorem utf8ByteSize_append (a b : String) :
    (a ++ b).utf8ByteSize = a.utf8ByteSize + b.utf8ByteSize := by
  cases a with
  | mk x =>
    cases b with
    | mk y => exact String.utf8Len_append x y

theorem Join_size (dir name : String) (hd : dir.utf8ByteSize ≠ 0) (hn : name.utf8ByteSize ≠ 0) :
    (Join dir name).utf8ByteSize = dir.utf8ByteSize + 1 + name.utf8ByteSize := by
  have h1 : dir ≠ "" := fun h => hd (by rw [h]; rfl)
  have h2 : name ≠ "" := fun h => hn (by rw [h]; rfl)
  unfold Join
  simp only [h1, h2, if_false]
  rw [utf8ByteSize_append, utf8ByteSize_append]
  rfl

theorem deepChain_size : deepChain.utf8ByteSize = 4074 := nestedFolder_size 42

theorem overlongPath_size : overlongPath.utf8ByteSize = 4171 := nestedFolder_size 43

theorem deepChain_current_size :
    (Join deepChain dockerComposeFile).utf8ByteSize = 4093 := by
  rw [Join_size _ _ (by rw [deepChain_size]; decide) (by decide), deepChain_size]
  rfl

theorem deepChain_next_size :
    (Join deepChain dockerComposeNext).utf8ByteSize = 4098 := by
  rw [Join_size _ _ (by rw [deepChain_size]; decide) (by decide), deepChain_size]
  rfl

theorem deepChain_backup_size :
    (Join deepChain dockerComposeBackup).utf8ByteSize = 4100 := by
  rw [Join_size _ _ (by rw [deepChain_size]; decide) (by decide), deepChain_size]
  rfl

theorem overlongPath_current_size :
    (Join overlongPath dockerComposeFile).utf8ByteSize = 4190 := by
  rw [Join_size _ _ (by rw [overlongPath_size]; decide) (by decide), overlongPath_size]
  rfl

theorem ne_of_size (p q : String) (h : p.utf8ByteSize ≠ q.utf8ByteSize) : p ≠ q :=
  fun e => h (by rw [e])

/-! ## A stat that fails with another error than `ENOENT` -/

/-- When the stat of the pending path fails with an error that is not
`ENOENT`, `handleUpgradeFile` goes on to `performUpgrade`, whether or not
something is at the path. -/
theorem handleUpgradeFile_other_error (env : Env) (chainFolder dataFolder : String) (w : World)
    (e : Errno) (hw : env.walkErr (Join chainFolder dockerComposeNext) = some e)
    (he : e ≠ .ENOENT) :
    handleUpgradeFile env chainFolder dataFolder w =
      (performUpgrade env chainFolder
        ⟨w.fs, w.calls ++ [.sleep 100, .stat (Join chainFolder dockerComposeNext)]⟩).2 := by
  rw [handleUpgradeFile_eq]
  have h : (statNotExist env (Join chainFolder dockerComposeNext) (sleep 100 w)).1 = false := by
    unfold statNotExist osStat
    cases e <;> simp [hw, IsNotExist] at he ⊢
  simp [h]

/-- Claim C5, at two inputs where it fails.  The chain folder `deepChain`
exists, holds an active configuration and no pending one, and passes
`validateDirectories`; its path has 4074 bytes, so the pending path has 4098
and its stat fails with `ENAMETOOLONG`.  `handleUpgradeFile` then runs
`docker-compose down` and tries the backup rename.  With the regular file
`/chain/docker-compose.yml` as chain folder the stat of the pending path fails
with `ENOTDIR` and `handleUpgradeFile` calls `docker-compose down`. -/
theorem handleUpgradeFile_runs_without_pending :
    deepWorld.fs deepChain = some .dir ∧
    deepWorld.fs (Join deepChain dockerComposeNext) = none ∧
    (validateDirectories pathMaxEnv deepChain "/data" deepWorld).1 = none ∧
    performed deepWorld (handleUpgradeFile pathMaxEnv deepChain "/data" deepWorld) =
      [.sleep 100,
       .stat (Join deepChain dockerComposeNext),
       .exec deepChain "docker-compose" ["down"],
       .rename (Join deepChain dockerComposeFile) (Join deepChain dockerComposeBackup)] ∧
    sampleWorld.fs (Join "/chain/docker-compose.yml" dockerComposeNext) = none ∧
    performed sampleWorld
        (handleUpgradeFile notDirEnv "/chain/docker-compose.yml" "/data" sampleWorld) =
      [.sleep 100,
       .stat "/chain/docker-compose.yml/docker-compose.yml-next",
       .exec "/chain/docker-compose.yml" "docker-compose" ["down"]] := by
  have n1 : Join deepChain dockerComposeFile ≠ deepChain :=
    ne_of_size _ _ (by rw [deepChain_current_size, deepChain_size]; decide)
  have n2 : Join deepChain dockerComposeFile ≠ "/data" :=
    ne_of_size _ _ (by rw [deepChain_current_size]; decide)
  have n3 : Join deepChain dockerComposeNext ≠ deepChain :=
    ne_of_size _ _ (by rw [deepChain_next_size, deepChain_size]; decide)
  have n4 : Join deepChain dockerComposeNext ≠ "/data" :=
    ne_of_size _ _ (by rw [deepChain_next_size]; decide)
  have n5 : "/data" ≠ deepChain := ne_of_size _ _ (by rw [deepChain_size]; decide)
  have f1 : deepWorld.fs deepChain = some .dir := by simp [deepWorld]
  have f2 : deepWorld.fs (Join deepChain dockerComposeFile) = some (.file "image: v1") := by
    simp [deepWorld, n1, n2]
  have f3 : deepWorld.fs (Join deepChain dockerComposeNext) = none := by
    simp [deepWorld, n3, n4]
  have f4 : deepWorld.fs "/data" = some .dir := by simp [deepWorld, n5]
  have w0 : pathMaxEnv.walkErr deepChain = none := by
    simp [pathMaxEnv, deepChain_size]
  have w1 : pathMaxEnv.walkErr "/data" = none := by decide
  have w2 : pathMaxEnv.walkErr (Join deepChain dockerComposeFile) = none := by
    simp [pathMaxEnv, deepChain_current_size]
  have w3 : pathMaxEnv.walkErr (Join deepChain dockerComposeNext) = some .ENAMETOOLONG := by
    simp [pathMaxEnv, deepChain_next_size]
  have w4 : pathMaxEnv.walkErr (Join deepChain dockerComposeBackup) = some .ENAMETOOLONG := by
    simp [pathMaxEnv, deepChain_backup_size]
  have x1 : pathMaxEnv.execErr deepChain "docker-compose" ["down"] = none := rfl
  refine ⟨f1, f3, ?_, ?_, by decide, by decide⟩
  · simp [validateDirectories, statNotExist, osStat, IsNotExist, World.record, f1, f2, f4,
      w0, w1, w2]
  · rw [handleUpgradeFile_other_error _ _ _ _ _ w3 (by decide)]
    simp [performed, performUpgrade, runCommand, osRename, World.record, deepWorld, x1, w2, w4,
      n1, n2]

/-- Claim C7, at three inputs where it fails.  Nothing is at `overlongPath`,
a path of 4171 bytes: as chain folder or as data folder its stat fails with
`ENAMETOOLONG`, `validateDirectories` returns no error and `runWatcher` goes
on to create the watcher.  With the regular file `/chain/docker-compose.yml`
as chain folder no `docker-compose.yml` is in it, the stat fails with
`ENOTDIR`, `validateDirectories` returns no error and `runWatcher` creates the
watcher and subscribes the data folder. -/
theorem validateDirectories_accepts_missing :
    sampleWorld.fs overlongPath = none ∧
    (validateDirectories pathMaxEnv overlongPath "/data" sampleWorld).1 = none ∧
    performed sampleWorld (runWatcher pathMaxEnv overlongPath "/data" [] sampleWorld) =
      [.stat overlongPath,
       .stat "/data",
       .stat (Join overlongPath dockerComposeFile),
       .newWatcher,
       .watcherAdd "/data"] ∧
    (validateDirectories pathMaxEnv "/chain" overlongPath sampleWorld).1 = none ∧
    performed sampleWorld (runWatcher pathMaxEnv "/chain" overlongPath [] sampleWorld) =
      [.stat "/chain",
       .stat overlongPath,
       .stat "/chain/docker-compose.yml",
       .newWatcher,
       .watcherAdd overlongPath,
       .osExit 1] ∧
    sampleWorld.fs (Join "/chain/docker-compose.yml" dockerComposeFile) = none ∧
    (validateDirectories notDirEnv "/chain/docker-compose.yml" "/data" sampleWorld).1 = none ∧
    performed sampleWorld
        (runWatcher notDirEnv "/chain/docker-compose.yml" "/data" [] sampleWorld) =
      [.stat "/chain/docker-compose.yml",
       .stat "/data",
       .stat "/chain/docker-compose.yml/docker-compose.yml",
       .newWatcher,
       .watcherAdd "/data"] := by
  have n1 : overlongPath ≠ "/chain" := ne_of_size _ _ (by rw [overlongPath_size]; decide)
  have n2 : overlongPath ≠ "/data" := ne_of_size _ _ (by rw [overlongPath_size]; decide)
  have n3 : overlongPath ≠ "/chain/docker-compose.yml" :=
    ne_of_size _ _ (by rw [overlongPath_size]; decide)
  have n4 : overlongPath ≠ "/chain/docker-compose.yml-next" :=
    ne_of_size _ _ (by rw [overlongPath_size]; decide)
  have n5 : overlongPath ≠ "/chain/docker-compose.yml-backup" :=
    ne_of_size _ _ (by rw [overlongPath_size]; decide)
  have f0 : sampleWorld.fs overlongPath = none := by
    simp [sampleWorld, sampleFS, n1, n2, n3, n4, n5]
  have f1 : sampleWorld.fs "/data" = some .dir := by decide
  have f2 : sampleWorld.fs "/chain" = some .dir := by decide
  have j : Join "/chain" dockerComposeFile = "/chain/docker-compose.yml" := by decide
  have f3 : sampleWorld.fs "/chain/docker-compose.yml" = some (.file "image: v1") := by decide
  have w0 : pathMaxEnv.walkErr overlongPath = some .ENAMETOOLONG := by
    simp [pathMaxEnv, overlongPath_size]
  have w1 : pathMaxEnv.walkErr "/data" = none := by decide
  have w2 : pathMaxEnv.walkErr (Join overlongPath dockerComposeFile) = some .ENAMETOOLONG := by
    simp [pathMaxEnv, overlongPath_current_size]
  have w3 : pathMaxEnv.walkErr "/chain" = none := by decide
  have w4 : pathMaxEnv.walkErr "/chain/docker-compose.yml" = none := by decide
  have x1 : pathMaxEnv.newWatcherErr = none := rfl
  have x2 : pathMaxEnv.watcherAddErr "/data" = none := by decide
  have x3 : pathMaxEnv.watcherAddErr overlongPath = some "file name too long" := by
    simp [pathMaxEnv, overlongPath_size]
  have c0 : sampleWorld.calls = [] := rfl
  refine ⟨f0, ?_, ?_, ?_, ?_, by decide, by decide, by decide⟩
  · simp [validateDirectories, statNotExist, osStat, IsNotExist, World.record, f1, w0, w1, w2]
  · simp [performed, runWatcher, validateDirectories, statNotExist, osStat, IsNotExist,
      newWatcher, watcherAdd, watchLoop, World.record, f1, w0, w1, w2, x1, x2, c0]
  · simp [validateDirectories, statNotExist, osStat, IsNotExist, World.record, f1, f2, f3,
      w0, w3, w4, j]
  · simp [performed, runWatcher, validateDirectories, statNotExist, osStat, IsNotExist,
      newWatcher, watcherAdd, osExit, watchLoop, World.record, f2, f3, w0, w3, w4, x1, x3, c0, j]

end CosmosDockerUpgrader
